import Mathlib

/-!
Shallow embedding of `app/services/booklet_ocr_service/section_extrator.py`
(`extract_objects_from_images`) and of the external calls it makes
(`PIL.Image.open`, `PIL.Image.crop`, the YOLO model), together with theorems
settling the specified properties of the batch OCR-section-extraction pipeline.
-/

namespace CdrAi

/-- Exceptions that can be raised while `extract_objects_from_images` runs:
Python `ValueError` (carrying its message), `IndexError` (from indexing an
empty list), and a decode/load failure from `PIL.Image.open`. -/
inductive PyError where
  | valueError (msg : String)
  | indexError
  | imageOpenError (path : String)
  deriving DecidableEq, Repr

/-- A decoded bitmap image as returned by `PIL.Image.open`: identified by the
path it was opened from, with integer pixel dimensions. -/
structure Img where
  width : ℤ
  height : ℤ
  path : String
  deriving DecidableEq, Repr

/-- An axis-aligned box with rational coordinates, as the detector returns it:
`boxes.xyxy[i].tolist()` yields four Python floats, modelled as rationals. -/
structure RatBox where
  x1 : ℚ
  y1 : ℚ
  x2 : ℚ
  y2 : ℚ
  deriving DecidableEq, Repr

/-- An axis-aligned box with integer coordinates, as passed to `img.crop`. -/
structure IntBox where
  x1 : ℤ
  y1 : ℤ
  x2 : ℤ
  y2 : ℤ
  deriving DecidableEq, Repr

/-- Python `int()` applied to a float: truncation toward zero (floor for
non-negative values, ceiling for negative ones). -/
def pyInt (q : ℚ) : ℤ := if q < 0 then ⌈q⌉ else ⌊q⌋

/-- `x1, y1, x2, y2 = map(int, xyxy[i].tolist())` (line 39): every coordinate
of the detector's box is truncated toward zero. -/
def truncBox (b : RatBox) : IntBox := ⟨pyInt b.x1, pyInt b.y1, pyInt b.x2, pyInt b.y2⟩

/-- A cropped sub-image: the source image together with the pixel region that
was extracted from it. -/
structure Crop where
  source : Img
  box : IntBox
  deriving DecidableEq, Repr

/-- Pixel width of a crop: `x2 - x1` of its region. -/
def Crop.width (c : Crop) : ℤ := c.box.x2 - c.box.x1

/-- Pixel height of a crop: `y2 - y1` of its region. -/
def Crop.height (c : Crop) : ℤ := c.box.y2 - c.box.y1

/-- `PIL.Image.crop`, modelled from the image library's documented behaviour at
the call site `img.crop((x1, y1, x2, y2))` (line 41): raises `ValueError` when
`x2 < x1` or `y2 < y1`; otherwise returns the region of exactly the requested
box — coordinates are NOT clamped to the image bounds (out-of-bounds pixels
are zero-filled by the library), and a box of zero width or height yields a
zero-size image rather than an error. -/
def Img.crop (img : Img) (b : IntBox) : Except PyError Crop :=
  if b.x2 < b.x1 then .error (.valueError "Coordinate right less than left")
  else if b.y2 < b.y1 then .error (.valueError "Coordinate lower less than upper")
  else .ok ⟨img, b⟩

/-- Python dict update `d[k] = v` on an insertion-ordered dict: replaces the
value in place when the key is present, appends a new entry otherwise. -/
def dinsert {α : Type} : List (String × α) → String → α → List (String × α)
  | [], k, v => [(k, v)]
  | (k', v') :: rest, k, v =>
      if k' = k then (k, v) :: rest else (k', v') :: dinsert rest k v

/-- Python `d.get(k)`: the value stored at `k`, or `None` when absent. -/
def dget {α : Type} : List (String × α) → String → Option α
  | [], _ => Option.none
  | (k', v') :: rest, k => if k' = k then some v' else dget rest k

/-- The loaded YOLO model at its interface boundary: `names` maps a class id
to its class label (`model.names[cls]`); `predict` is one inference call
`model(img, conf=0.5, iou=0.45)` with the per-result box lists flattened in
iteration order (the loop over `res`, then over the boxes of each result),
yielding the `(int(class_ids[i]), xyxy[i])` pairs in the detector's native
output order. -/
structure Model where
  names : ℕ → String
  predict : Img → List (ℕ × RatBox)

/-- The detection loop of `extract_objects_from_images` (lines 30-43): for
each prediction in detector order, the class label is looked up, the box is
truncated to integers and cropped from the source image, and the crop is
written into the `detections` dict under the label — so a later detection of
a class overwrites an earlier one. A crop failure propagates as the loop's
exception. -/
def buildDetections (img : Img) (names : ℕ → String) :
    List (ℕ × RatBox) → List (String × Crop) → Except PyError (List (String × Crop))
  | [], acc => .ok acc
  | (cls, b) :: rest, acc =>
      match img.crop (truncBox b) with
      | .error e => .error e
      | .ok c => buildDetections img names rest (dinsert acc (names cls) c)

/-- A Python value occurring in the structured result records: `None`, a
cropped image, a string, or a nested dict (insertion-ordered). -/
inductive Value where
  | none
  | crop (c : Crop)
  | str (s : String)
  | dict (entries : List (String × Value))

/-- The entries of a dict value (empty for non-dict values). -/
def Value.entries : Value → List (String × Value)
  | .dict es => es
  | _ => []

/-- The keys of a dict value, in insertion order. -/
def Value.keys (v : Value) : List String := v.entries.map Prod.fst

/-- Dict lookup on a value. -/
def Value.getKey (v : Value) (k : String) : Option Value := dget v.entries k

/-- `detections.get(name)` as a record field value: the crop when the class
was detected, Python `None` otherwise. -/
def vget (det : List (String × Crop)) (k : String) : Value :=
  match dget det k with
  | some c => .crop c
  | Option.none => .none

/-- The schema-mapping step (lines 46-73): structures the detections dict by
the item's type key. `outlet_copy` builds the outlet record, `partner_copy`
builds the partner record with its two fixed sub-dicts (partner 1 fields
suffixed `_1`, partner 2 fields unsuffixed), and any other key raises
`ValueError(f"Unknown image type: {key}")`. -/
def mapSchema (key : String) (det : List (String × Crop)) : Except PyError Value :=
  if key = "outlet_copy" then
    .ok (.dict [("type", .str "outlet_copy"),
                ("data", .dict [("outlet_id", vget det "outlet_id")])])
  else if key = "partner_copy" then
    .ok (.dict [("type", .str "partner_copy"),
                ("data", .dict
                  [("partner_1", .dict
                     [("name_1", vget det "name_1"),
                      ("partner_code_1", vget det "partner_code_1"),
                      ("age_1", vget det "age_1"),
                      ("date_1", vget det "date_1"),
                      ("sign_1", vget det "sign_1"),
                      ("cheek_mark_1", vget det "cheek_mark_1"),
                      ("phn_number_1", vget det "phn_number_1")]),
                   ("partner_2", .dict
                     [("name", vget det "name"),
                      ("partner_code", vget det "partner_code"),
                      ("age", vget det "age"),
                      ("date", vget det "date"),
                      ("sign", vget det "sign"),
                      ("cheek_mark", vget det "cheek_mark"),
                      ("phn_number", vget det "phn_number")])])])
  else .error (.valueError ("Unknown image type: " ++ key))

/-- One iteration of the batch loop (lines 20-75): `list(img_dict.items())[0]`
takes the first entry of the item's dict (raising `IndexError` on an empty
dict, ignoring any further entries), the image is opened, the model is run,
the detections dict is built with its crops, and the result is structured by
the type key. There is no try/except: any exception propagates. -/
def processItem (loader : String → Except PyError Img) (model : Model)
    (item : List (String × String)) : Except PyError Value :=
  match item with
  | [] => .error .indexError
  | (key, imgPath) :: _ =>
      match loader imgPath with
      | .error e => .error e
      | .ok img =>
          match buildDetections img model.names (model.predict img) [] with
          | .error e => .error e
          | .ok det => mapSchema key det

/-- `extract_objects_from_images` (lines 6-76), with the image loader and the
loaded model as its external collaborators: processes the items in order,
appending one result record per item; an exception raised while processing
any item propagates out of the call (there is no per-item error handling), so
the list of records is returned only when every item succeeds. -/
def extract_objects_from_images (loader : String → Except PyError Img)
    (model : Model) :
    List (List (String × String)) → Except PyError (List Value)
  | [] => .ok []
  | item :: rest =>
      match processItem loader model item with
      | .error e => .error e
      | .ok r =>
          match extract_objects_from_images loader model rest with
          | .error e => .error e
          | .ok rs => .ok (r :: rs)

/-! Concrete fixtures used by witnesses and counterexamples. -/

/-- A concrete 100×80 image. -/
def imgA : Img := ⟨100, 80, "A.jpg"⟩

/-- A loader for which every path decodes to `imgA`. -/
def loaderOk : String → Except PyError Img := fun _ => .ok imgA

/-- A loader for which exactly the path `"bad.jpg"` fails to decode. -/
def loaderBadJpg : String → Except PyError Img := fun p =>
  if p = "bad.jpg" then .error (.imageOpenError p) else .ok imgA

/-- A concrete class-name table: class 0 is `"a"`, every other id is
`"outlet_id"`. -/
def namesAB : ℕ → String := fun c => if c = 0 then "a" else "outlet_id"

/-- A concrete model that never detects anything. -/
def modelEmpty : Model := ⟨namesAB, fun _ => []⟩

/-! Helper lemmas about the dict operations and the detection loop. -/

@[simp]
theorem dget_dinsert_self {α : Type} (d : List (String × α)) (k : String) (v : α) :
    dget (dinsert d k v) k = some v := by
  induction d with
  | nil => simp [dinsert, dget]
  | cons hd tl ih =>
      obtain ⟨k', v'⟩ := hd
      by_cases h : k' = k
      · simp [dinsert, dget, h]
      · simp [dinsert, dget, h, ih]

theorem dget_dinsert_ne {α : Type} (d : List (String × α)) (k' k : String) (v : α)
    (h : k' ≠ k) : dget (dinsert d k' v) k = dget d k := by
  induction d with
  | nil => simp [dinsert, dget, h]
  | cons hd tl ih =>
      obtain ⟨k'', v''⟩ := hd
      by_cases h2 : k'' = k'
      · subst h2
        simp [dinsert, dget, h]
      · simp [dinsert, dget, h2, ih]

theorem buildDetections_cons (img : Img) (names : ℕ → String) (cls : ℕ)
    (b : RatBox) (rest : List (ℕ × RatBox)) (acc : List (String × Crop)) :
    buildDetections img names ((cls, b) :: rest) acc =
      match img.crop (truncBox b) with
      | .error e => .error e
      | .ok c => buildDetections img names rest (dinsert acc (names cls) c) := rfl

theorem buildDetections_append (img : Img) (names : ℕ → String)
    (xs ys : List (ℕ × RatBox)) (acc d : List (String × Crop))
    (h : buildDetections img names (xs ++ ys) acc = .ok d) :
    ∃ mid, buildDetections img names xs acc = .ok mid ∧
      buildDetections img names ys mid = .ok d := by
  induction xs generalizing acc with
  | nil => exact ⟨acc, rfl, h⟩
  | cons hd tl ih =>
      obtain ⟨cls, b⟩ := hd
      rw [List.cons_append] at h
      cases hc : img.crop (truncBox b) with
      | error e =>
          rw [buildDetections_cons, hc] at h
          exact absurd h (by simp)
      | ok c =>
          rw [buildDetections_cons, hc] at h
          obtain ⟨mid, h1, h2⟩ := ih _ h
          refine ⟨mid, ?_, h2⟩
          rw [buildDetections_cons, hc]
          exact h1

theorem buildDetections_no_class (img : Img) (names : ℕ → String)
    (ps : List (ℕ × RatBox)) (acc d : List (String × Crop)) (k : String)
    (hk : ∀ p ∈ ps, names p.1 ≠ k)
    (h : buildDetections img names ps acc = .ok d) :
    dget d k = dget acc k := by
  induction ps generalizing acc with
  | nil =>
      unfold buildDetections at h
      cases h
      rfl
  | cons hd tl ih =>
      obtain ⟨cls, b⟩ := hd
      cases hc : img.crop (truncBox b) with
      | error e =>
          rw [buildDetections_cons, hc] at h
          exact absurd h (by simp)
      | ok c =>
          rw [buildDetections_cons, hc] at h
          have htl : ∀ p ∈ tl, names p.1 ≠ k := fun p hp => hk p (List.mem_cons_of_mem _ hp)
          rw [ih _ htl h, dget_dinsert_ne _ _ _ _ (hk (cls, b) (List.mem_cons_self _ _))]

/-! ### C9: only the first dict entry of an item is consumed; an empty item
dict raises `IndexError`. -/

/-- C9 — confirmed. `list(img_dict.items())[0]` reads only the first entry of
each item's dict: extra entries never change the outcome, and an item that is
an empty dict makes the whole call raise `IndexError` instead of producing a
result record. -/
theorem first_entry_only_and_empty_raises :
    (∀ (loader : String → Except PyError Img) (model : Model) (k p : String)
       (rest : List (String × String)) (more : List (List (String × String))),
       extract_objects_from_images loader model (((k, p) :: rest) :: more) =
         extract_objects_from_images loader model ([(k, p)] :: more)) ∧
    (∀ (loader : String → Except PyError Img) (model : Model)
       (more : List (List (String × String))),
       extract_objects_from_images loader model ([] :: more) =
         .error .indexError) :=
  ⟨fun _ _ _ _ _ _ => rfl, fun _ _ _ => rfl⟩

/-! ### C1: per-item failures are NOT contained — they abort the batch. -/

/-- C1 — counterexample. In a two-item batch whose first item's image fails to
decode, `extract_objects_from_images` raises (returns the decode error): the
first item's slot does not hold an error-marker record, and the second item is
never processed — the exception does cross the batch boundary. -/
theorem batch_abort_on_decode_failure_cex :
    extract_objects_from_images loaderBadJpg modelEmpty
      [[("outlet_copy", "bad.jpg")], [("outlet_copy", "ok.jpg")]] =
      .error (.imageOpenError "bad.jpg") := rfl

/-- C1 — amended. A failure while processing one item (image decode failure,
crop failure, unknown type tag, empty item dict) propagates out of
`extract_objects_from_images` and aborts the entire batch: if every item of a
prefix succeeds and the next item raises `e`, the whole call raises `e`, and
no output list is produced. -/
theorem item_failure_aborts_batch (loader : String → Except PyError Img)
    (model : Model) (pre : List (List (String × String)))
    (item : List (String × String)) (rest : List (List (String × String)))
    (e : PyError)
    (hpre : ∀ it ∈ pre, ∃ v, processItem loader model it = .ok v)
    (hitem : processItem loader model item = .error e) :
    extract_objects_from_images loader model (pre ++ item :: rest) = .error e := by
  induction pre with
  | nil =>
      rw [List.nil_append]
      unfold extract_objects_from_images
      rw [hitem]
  | cons hd tl ih =>
      obtain ⟨v, hv⟩ := hpre hd (List.mem_cons_self _ _)
      rw [List.cons_append]
      unfold extract_objects_from_images
      rw [hv, ih (fun it hit => hpre it (List.mem_cons_of_mem _ hit))]

/-- C1 — witness for the amended theorem: a concrete batch whose first item
succeeds and whose second item is an empty dict aborts with `IndexError`. -/
theorem item_failure_aborts_batch_witness :
    (∀ it ∈ [[("outlet_copy", "p.jpg")]],
       ∃ v, processItem loaderOk modelEmpty it = .ok v) ∧
    processItem loaderOk modelEmpty [] = .error .indexError ∧
    extract_objects_from_images loaderOk modelEmpty
      ([[("outlet_copy", "p.jpg")]] ++ [] :: []) = .error .indexError := by
  refine ⟨?_, rfl, ?_⟩
  · intro it hit
    rw [List.mem_singleton] at hit
    subst hit
    exact ⟨_, rfl⟩
  · exact item_failure_aborts_batch loaderOk modelEmpty [[("outlet_copy", "p.jpg")]]
      [] [] .indexError
      (by intro it hit; rw [List.mem_singleton] at hit; subst hit; exact ⟨_, rfl⟩)
      rfl

/-! ### C2: result count and order — only on fully successful batches. -/

/-- C2 — counterexample. A one-item batch whose image fails to decode returns
no result records at all (the call raises the decode error), so
`extract_objects_from_images` does not return exactly N records for every
input sequence of N items. -/
theorem length_not_preserved_on_failure_cex :
    extract_objects_from_images loaderBadJpg modelEmpty
      [[("outlet_copy", "bad.jpg")]] = .error (.imageOpenError "bad.jpg") := rfl

/-- C2 — amended. Whenever `extract_objects_from_images` returns normally, it
returns exactly one result record per input item, index-aligned with the
input sequence: result `i` is the record produced from input item `i`. -/
theorem extract_ok_length_and_alignment (loader : String → Except PyError Img)
    (model : Model) (items : List (List (String × String))) (l : List Value)
    (h : extract_objects_from_images loader model items = .ok l) :
    l.length = items.length ∧
    ∀ (i : ℕ) (hi : i < items.length) (hl : i < l.length),
      processItem loader model (items.get ⟨i, hi⟩) = .ok (l.get ⟨i, hl⟩) := by
  induction items generalizing l with
  | nil =>
      unfold extract_objects_from_images at h
      cases h
      exact ⟨rfl, fun i hi => absurd hi (Nat.not_lt_zero i)⟩
  | cons hd tl ih =>
      unfold extract_objects_from_images at h
      cases hp : processItem loader model hd with
      | error e => rw [hp] at h; exact absurd h (by simp)
      | ok r =>
          rw [hp] at h
          cases hrec : extract_objects_from_images loader model tl with
          | error e => rw [hrec] at h; exact absurd h (by simp)
          | ok rs =>
              rw [hrec] at h
              cases h
              obtain ⟨hlen, halign⟩ := ih rs hrec
              refine ⟨by simp [hlen], ?_⟩
              intro i hi hl
              match i with
              | 0 => exact hp
              | Nat.succ j =>
                  exact halign j (Nat.lt_of_succ_lt_succ hi) (Nat.lt_of_succ_lt_succ hl)

/-- C2 — witness for the amended theorem: a concrete successful two-item batch
returns two records, each the record of its own input item. -/
theorem extract_ok_length_and_alignment_witness :
    ∃ l, extract_objects_from_images loaderOk modelEmpty
        [[("outlet_copy", "p.jpg")], [("partner_copy", "q.jpg")]] = .ok l ∧
      l.length = 2 ∧
      ∀ (i : ℕ) (hi : i < 2) (hl : i < l.length),
        processItem loaderOk modelEmpty
          ([[("outlet_copy", "p.jpg")], [("partner_copy", "q.jpg")]].get ⟨i, hi⟩) =
          .ok (l.get ⟨i, hl⟩) := by
  refine ⟨_, rfl, ?_⟩
  have h := extract_ok_length_and_alignment loaderOk modelEmpty
    [[("outlet_copy", "p.jpg")], [("partner_copy", "q.jpg")]] _ rfl
  exact ⟨h.1, h.2⟩

/-! ### C5: an unknown type tag raises `ValueError` and aborts the batch. -/

/-- C5 — counterexample. A two-item batch whose first item's tag is
`"bad_copy"` makes the whole call raise `ValueError("Unknown image type:
bad_copy")`: the failure is not scoped to that item (the second item is never
processed and no output list is produced), so it is batch-aborting. -/
theorem unknown_tag_aborts_batch_cex :
    extract_objects_from_images loaderOk modelEmpty
      [[("bad_copy", "p.jpg")], [("outlet_copy", "q.jpg")]] =
      .error (.valueError "Unknown image type: bad_copy") := rfl

/-- C5 — amended. An item whose type tag is neither `"outlet_copy"` nor
`"partner_copy"` makes the schema-mapping step raise
`ValueError("Unknown image type: " + tag)` (after the item's image has been
opened and its detections cropped), and the exception aborts the entire
batch rather than being terminal for that single item only. -/
theorem unknown_tag_raises_value_error (loader : String → Except PyError Img)
    (model : Model) (key path : String) (restEntries : List (String × String))
    (more : List (List (String × String))) (img : Img) (det : List (String × Crop))
    (hk1 : key ≠ "outlet_copy") (hk2 : key ≠ "partner_copy")
    (hload : loader path = .ok img)
    (hdet : buildDetections img model.names (model.predict img) [] = .ok det) :
    extract_objects_from_images loader model (((key, path) :: restEntries) :: more) =
      .error (.valueError ("Unknown image type: " ++ key)) := by
  have hitem : processItem loader model ((key, path) :: restEntries) =
      .error (.valueError ("Unknown image type: " ++ key)) := by
    simp only [processItem, hload, hdet]
    unfold mapSchema
    rw [if_neg hk1, if_neg hk2]
  unfold extract_objects_from_images
  rw [hitem]

/-- C5 — witness: the amended theorem applied to a concrete batch with tag
`"bad_copy"`. -/
theorem unknown_tag_raises_value_error_witness :
    extract_objects_from_images loaderOk modelEmpty
      [[("bad_copy", "p.jpg")]] =
      .error (.valueError "Unknown image type: bad_copy") :=
  unknown_tag_raises_value_error loaderOk modelEmpty "bad_copy" "p.jpg" [] []
    imgA [] (by decide) (by decide) rfl rfl

/-! ### C3: last detection of a class in iteration order wins. -/

/-- C3 — confirmed. If the detector's output is `p1 ++ [(c, b)] ++ p2` and no
detection after `(c, b)` carries the same class label, then the detections
map built by the loop holds, for that label, exactly the crop of `(c, b)` —
the last detection of the class in iteration order — regardless of how many
earlier detections of the same class occur in `p1`; those are discarded
silently. -/
theorem detections_last_wins (img : Img) (names : ℕ → String)
    (p1 p2 : List (ℕ × RatBox)) (c : ℕ) (b : RatBox)
    (d : List (String × Crop)) (cr : Crop)
    (hbuild : buildDetections img names (p1 ++ (c, b) :: p2) [] = .ok d)
    (hlater : ∀ q ∈ p2, names q.1 ≠ names c)
    (hcrop : img.crop (truncBox b) = .ok cr) :
    dget d (names c) = some cr := by
  obtain ⟨mid, hmid, hrest⟩ := buildDetections_append img names p1 ((c, b) :: p2) [] d hbuild
  rw [buildDetections_cons, hcrop] at hrest
  rw [buildDetections_no_class img names p2 _ d (names c) hlater hrest,
    dget_dinsert_self]

/-- C3 — witness: with two detections of class `"a"` in order (boxes
`(10,10,20,20)` then `(30,30,40,40)`), the map's entry for `"a"` is the crop
of the second box, not the first. -/
theorem detections_last_wins_witness :
    buildDetections imgA namesAB
        [(0, ⟨10, 10, 20, 20⟩), (0, ⟨30, 30, 40, 40⟩)] [] =
      .ok [("a", ⟨imgA, ⟨30, 30, 40, 40⟩⟩)] ∧
    dget [("a", (⟨imgA, ⟨30, 30, 40, 40⟩⟩ : Crop))] (namesAB 0) =
      some ⟨imgA, ⟨30, 30, 40, 40⟩⟩ := by
  constructor
  · rfl
  · exact detections_last_wins imgA namesAB [(0, ⟨10, 10, 20, 20⟩)] [] 0
      ⟨30, 30, 40, 40⟩ [("a", ⟨imgA, ⟨30, 30, 40, 40⟩⟩)] ⟨imgA, ⟨30, 30, 40, 40⟩⟩
      rfl (by intro q hq; exact absurd hq (List.not_mem_nil q)) rfl

/-! ### C4: the record's shape is fully determined by the type tag. -/

/-- C4 — confirmed. An item tagged `"outlet_copy"` that processes successfully
always yields a record with exactly the top-level keys `type` and `data`,
whose `data` has exactly the key `outlet_id`; an item tagged `"partner_copy"`
always yields a record whose `data` has exactly the keys `partner_1` and
`partner_2`, with `partner_1` holding exactly the seven `_1`-suffixed fields
and `partner_2` exactly the seven unsuffixed fields. A record of one variant
never carries keys of the other. -/
theorem schema_keys_determined_by_tag :
    (∀ (loader : String → Except PyError Img) (model : Model) (path : String)
       (rest : List (String × String)) (v : Value),
       processItem loader model (("outlet_copy", path) :: rest) = .ok v →
       v.keys = ["type", "data"] ∧
       v.getKey "type" = some (.str "outlet_copy") ∧
       (v.getKey "data").map Value.keys = some ["outlet_id"]) ∧
    (∀ (loader : String → Except PyError Img) (model : Model) (path : String)
       (rest : List (String × String)) (v : Value),
       processItem loader model (("partner_copy", path) :: rest) = .ok v →
       v.keys = ["type", "data"] ∧
       v.getKey "type" = some (.str "partner_copy") ∧
       (v.getKey "data").map Value.keys = some ["partner_1", "partner_2"] ∧
       ((v.getKey "data").bind (fun d => d.getKey "partner_1")).map Value.keys =
         some ["name_1", "partner_code_1", "age_1", "date_1", "sign_1",
               "cheek_mark_1", "phn_number_1"] ∧
       ((v.getKey "data").bind (fun d => d.getKey "partner_2")).map Value.keys =
         some ["name", "partner_code", "age", "date", "sign", "cheek_mark",
               "phn_number"]) := by
  constructor
  · intro loader model path rest v h
    cases hload : loader path with
    | error e =>
        simp only [processItem, hload] at h
        exact absurd h (by simp)
    | ok img =>
        cases hdet : buildDetections img model.names (model.predict img) [] with
        | error e =>
            simp only [processItem, hload, hdet] at h
            exact absurd h (by simp)
        | ok det =>
            simp only [processItem, hload, hdet, mapSchema, reduceIte,
              Except.ok.injEq] at h
            subst h
            exact ⟨rfl, rfl, rfl⟩
  · intro loader model path rest v h
    cases hload : loader path with
    | error e =>
        simp only [processItem, hload] at h
        exact absurd h (by simp)
    | ok img =>
        cases hdet : buildDetections img model.names (model.predict img) [] with
        | error e =>
            simp only [processItem, hload, hdet] at h
            exact absurd h (by simp)
        | ok det =>
            simp only [processItem, hload, hdet, mapSchema, reduceIte] at h
            rw [if_neg (show ("partner_copy" : String) ≠ "outlet_copy" by decide)] at h
            cases h
            exact ⟨rfl, rfl, rfl, rfl, rfl⟩

/-- C4 — witness: a concrete successful run for each tag, with the key lists
evaluated on the resulting records. -/
theorem schema_keys_determined_by_tag_witness :
    ((Value.dict [("type", .str "outlet_copy"),
        ("data", .dict [("outlet_id", Value.none)])]).keys = ["type", "data"] ∧
     (Value.dict [("type", .str "outlet_copy"),
        ("data", .dict [("outlet_id", Value.none)])]).getKey "type" =
       some (.str "outlet_copy") ∧
     ((Value.dict [("type", .str "outlet_copy"),
        ("data", .dict [("outlet_id", Value.none)])]).getKey "data").map
       Value.keys = some ["outlet_id"]) :=
  schema_keys_determined_by_tag.1 loaderOk modelEmpty "p.jpg" [] _ rfl

/-! ### C6: cropping does not clamp the box to the image bounds. -/

/-- C6 — counterexample. On the 100-pixel-wide image `imgA`, cropping the box
`(10, 10, 150, 50)` — whose `x2 = 150` exceeds the image width — succeeds and
returns the crop of exactly that box: the crop's right edge stays 150 and its
width is 140, not the 90 a clamp to `image.width` would give. The coordinates
are not clamped to `[0, width) × [0, height)`. -/
theorem crop_no_clamp_cex :
    Img.crop imgA ⟨10, 10, 150, 50⟩ = .ok ⟨imgA, ⟨10, 10, 150, 50⟩⟩ ∧
    (⟨imgA, ⟨10, 10, 150, 50⟩⟩ : Crop).box.x2 = 150 ∧
    imgA.width = 100 ∧
    Crop.width ⟨imgA, ⟨10, 10, 150, 50⟩⟩ = 140 ∧
    (140 : ℤ) ≠ 100 - 10 := by
  exact ⟨rfl, rfl, rfl, rfl, by decide⟩

/-- C6 — amended. Cropping performs no clamping: for any box with `x1 ≤ x2`
and `y1 ≤ y2` — including boxes extending past the image bounds — `img.crop`
returns the crop of exactly that box, whose width and height are those of the
box itself (so a zero-width or zero-height box yields an empty crop without
raising); `crop` raises `ValueError` only when `x2 < x1` or `y2 < y1`. -/
theorem crop_keeps_box_unclamped (img : Img) (b : IntBox)
    (hx : b.x1 ≤ b.x2) (hy : b.y1 ≤ b.y2) :
    img.crop b = .ok ⟨img, b⟩ ∧
    Crop.width ⟨img, b⟩ = b.x2 - b.x1 ∧
    Crop.height ⟨img, b⟩ = b.y2 - b.y1 := by
  refine ⟨?_, rfl, rfl⟩
  unfold Img.crop
  rw [if_neg (not_lt.mpr hx), if_neg (not_lt.mpr hy)]

/-- C6 — witness for the amended theorem: a zero-width box on `imgA` yields an
empty crop, without an exception. -/
theorem crop_keeps_box_unclamped_witness :
    imgA.crop ⟨20, 10, 20, 50⟩ = .ok ⟨imgA, ⟨20, 10, 20, 50⟩⟩ ∧
    Crop.width ⟨imgA, ⟨20, 10, 20, 50⟩⟩ = 0 ∧
    Crop.height ⟨imgA, ⟨20, 10, 20, 50⟩⟩ = 40 :=
  crop_keeps_box_unclamped imgA ⟨20, 10, 20, 50⟩ (by decide) (by decide)

/-! ### C7: absent classes appear as explicit `None`-valued keys. -/

theorem vget_absent (det : List (String × Crop)) (k : String)
    (h : dget det k = Option.none) : vget det k = Value.none := by
  rw [vget, h]

/-- C7 — confirmed. For every input item that processes successfully, each
expected field whose class label carries no detection holds the explicit
absent marker (Python `None`) under its own key — never a missing key, never
an exception. This covers every expected field of both variants: `outlet_id`
of an `outlet_copy` record, each of the seven `_1`-suffixed fields of
`partner_1`, and each of the seven unsuffixed fields of `partner_2`. -/
theorem absent_field_explicit_none (loader : String → Except PyError Img)
    (model : Model) (path : String) (rest : List (String × String))
    (img : Img) (det : List (String × Crop))
    (hload : loader path = .ok img)
    (hdet : buildDetections img model.names (model.predict img) [] = .ok det) :
    (dget det "outlet_id" = Option.none →
      ∃ v, processItem loader model (("outlet_copy", path) :: rest) = .ok v ∧
        (v.getKey "data").bind (fun d => d.getKey "outlet_id") =
          some Value.none) ∧
    (∀ f ∈ ["name_1", "partner_code_1", "age_1", "date_1", "sign_1",
            "cheek_mark_1", "phn_number_1"],
      dget det f = Option.none →
      ∃ v, processItem loader model (("partner_copy", path) :: rest) = .ok v ∧
        ((v.getKey "data").bind (fun d => d.getKey "partner_1")).bind
          (fun p => p.getKey f) = some Value.none) ∧
    (∀ f ∈ ["name", "partner_code", "age", "date", "sign", "cheek_mark",
            "phn_number"],
      dget det f = Option.none →
      ∃ v, processItem loader model (("partner_copy", path) :: rest) = .ok v ∧
        ((v.getKey "data").bind (fun d => d.getKey "partner_2")).bind
          (fun p => p.getKey f) = some Value.none) := by
  have hout : processItem loader model (("outlet_copy", path) :: rest) =
      .ok (.dict [("type", .str "outlet_copy"),
                  ("data", .dict [("outlet_id", vget det "outlet_id")])]) := by
    simp only [processItem, hload, hdet, mapSchema, reduceIte]
  have hpart : processItem loader model (("partner_copy", path) :: rest) =
      .ok (.dict [("type", .str "partner_copy"),
                  ("data", .dict
                    [("partner_1", .dict
                       [("name_1", vget det "name_1"),
                        ("partner_code_1", vget det "partner_code_1"),
                        ("age_1", vget det "age_1"),
                        ("date_1", vget det "date_1"),
                        ("sign_1", vget det "sign_1"),
                        ("cheek_mark_1", vget det "cheek_mark_1"),
                        ("phn_number_1", vget det "phn_number_1")]),
                     ("partner_2", .dict
                       [("name", vget det "name"),
                        ("partner_code", vget det "partner_code"),
                        ("age", vget det "age"),
                        ("date", vget det "date"),
                        ("sign", vget det "sign"),
                        ("cheek_mark", vget det "cheek_mark"),
                        ("phn_number", vget det "phn_number")])])]) := by
    simp only [processItem, hload, hdet, mapSchema, reduceIte]
    rw [if_neg (show ("partner_copy" : String) ≠ "outlet_copy" by decide)]
  refine ⟨?_, ?_, ?_⟩
  · intro habs
    refine ⟨_, hout, ?_⟩
    rw [vget_absent det "outlet_id" habs]
    rfl
  · intro f hf habs
    refine ⟨_, hpart, ?_⟩
    fin_cases hf <;> (rw [vget_absent _ _ habs]; rfl)
  · intro f hf habs
    refine ⟨_, hpart, ?_⟩
    fin_cases hf <;> (rw [vget_absent _ _ habs]; rfl)

/-- C7 — witness: a concrete item of each variant with no detections at all
still yields records whose `outlet_id`, `partner_1.name_1` and
`partner_2.name` keys are present and hold the explicit `None`. -/
theorem absent_field_explicit_none_witness :
    (∃ v, processItem loaderOk modelEmpty [("outlet_copy", "p.jpg")] = .ok v ∧
       (v.getKey "data").bind (fun d => d.getKey "outlet_id") =
         some Value.none) ∧
    (∃ v, processItem loaderOk modelEmpty [("partner_copy", "p.jpg")] = .ok v ∧
       ((v.getKey "data").bind (fun d => d.getKey "partner_1")).bind
         (fun p => p.getKey "name_1") = some Value.none) ∧
    (∃ v, processItem loaderOk modelEmpty [("partner_copy", "p.jpg")] = .ok v ∧
       ((v.getKey "data").bind (fun d => d.getKey "partner_2")).bind
         (fun p => p.getKey "name") = some Value.none) := by
  have h := absent_field_explicit_none loaderOk modelEmpty "p.jpg" [] imgA []
    rfl rfl
  exact ⟨h.1 rfl, h.2.1 "name_1" (by simp) rfl, h.2.2 "name" (by simp) rfl⟩

/-! ### C8: determinism given deterministic collaborators. -/

/-- C8 — confirmed. `extract_objects_from_images` is deterministic given
deterministic detector and loader output: two invocations on the same input
sequence whose loaders and models agree pointwise (same decoded image per
path, same class names, same predictions per image) produce identical result
sequences. -/
theorem extract_deterministic (l1 l2 : String → Except PyError Img)
    (m1 m2 : Model) (items : List (List (String × String)))
    (hl : ∀ p, l1 p = l2 p)
    (hn : ∀ c, m1.names c = m2.names c)
    (hp : ∀ i, m1.predict i = m2.predict i) :
    extract_objects_from_images l1 m1 items =
      extract_objects_from_images l2 m2 items := by
  have hle : l1 = l2 := funext hl
  have hm : m1 = m2 := by
    cases m1
    cases m2
    simp only [Model.mk.injEq]
    exact ⟨funext hn, funext hp⟩
  rw [hle, hm]

/-- C8 — witness: two syntactically different but pointwise-equal loaders and
models give the same results on a concrete batch. -/
theorem extract_deterministic_witness :
    extract_objects_from_images loaderOk modelEmpty
        [[("outlet_copy", "p.jpg")], [("partner_copy", "q.jpg")]] =
      extract_objects_from_images (fun p => if p = p then .ok imgA else .error .indexError)
        ⟨fun c => if c = 0 then "a" else "outlet_id", fun _ => [] ++ []⟩
        [[("outlet_copy", "p.jpg")], [("partner_copy", "q.jpg")]] :=
  extract_deterministic loaderOk
    (fun p => if p = p then .ok imgA else .error .indexError)
    modelEmpty ⟨fun c => if c = 0 then "a" else "outlet_id", fun _ => [] ++ []⟩
    [[("outlet_copy", "p.jpg")], [("partner_copy", "q.jpg")]]
    (fun p => by simp [loaderOk])
    (fun c => rfl)
    (fun _ => rfl)

/-! ### C10: boxes are truncated to integers before cropping. -/

/-- C10 — confirmed. The detection loop converts the detector's fractional box
coordinates to integers by truncation toward zero (`pyInt` is the floor for
non-negative coordinates and the ceiling for non-positive ones) before the
crop is taken: the crop recorded for a prediction `(c, b)` is the crop of
`truncBox b`, not of the fractional box `b`. -/
theorem crop_uses_truncated_box (img : Img) (names : ℕ → String) (c : ℕ)
    (b : RatBox) (cr : Crop)
    (h : img.crop (truncBox b) = .ok cr) :
    buildDetections img names [(c, b)] [] = .ok [(names c, cr)] ∧
    cr.box = truncBox b ∧
    (∀ q : ℚ, 0 ≤ q → pyInt q = ⌊q⌋) ∧
    (∀ q : ℚ, q ≤ 0 → pyInt q = ⌈q⌉) := by
  refine ⟨?_, ?_, ?_, ?_⟩
  · rw [buildDetections_cons, h]
    rfl
  · unfold Img.crop at h
    split at h
    · exact absurd h (by simp)
    · split at h
      · exact absurd h (by simp)
      · cases h
        rfl
  · intro q hq
    rw [pyInt, if_neg (not_lt.mpr hq)]
  · intro q hq
    rcases lt_or_eq_of_le hq with hlt | heq
    · rw [pyInt, if_pos hlt]
    · rw [heq]
      simp [pyInt]

/-- C10 — witness: the fractional box `(21/2, 21/2, 509/10, 251/5)` is
truncated to `(10, 10, 50, 50)` and that integer box is what gets cropped. -/
theorem crop_uses_truncated_box_witness :
    Img.crop imgA (truncBox ⟨21/2, 21/2, 509/10, 251/5⟩) =
      .ok ⟨imgA, ⟨10, 10, 50, 50⟩⟩ ∧
    (buildDetections imgA namesAB [(1, ⟨21/2, 21/2, 509/10, 251/5⟩)] [] =
        .ok [("outlet_id", ⟨imgA, ⟨10, 10, 50, 50⟩⟩)] ∧
      (⟨imgA, ⟨10, 10, 50, 50⟩⟩ : Crop).box = truncBox ⟨21/2, 21/2, 509/10, 251/5⟩ ∧
      (∀ q : ℚ, 0 ≤ q → pyInt q = ⌊q⌋) ∧
      (∀ q : ℚ, q ≤ 0 → pyInt q = ⌈q⌉)) := by
  have hA : pyInt (21/2 : ℚ) = 10 := by
    rw [pyInt, if_neg (by norm_num : ¬((21/2 : ℚ) < 0))]
    norm_num
  have hB : pyInt (509/10 : ℚ) = 50 := by
    rw [pyInt, if_neg (by norm_num : ¬((509/10 : ℚ) < 0))]
    norm_num
  have hC : pyInt (251/5 : ℚ) = 50 := by
    rw [pyInt, if_neg (by norm_num : ¬((251/5 : ℚ) < 0))]
    norm_num
  have htb : truncBox ⟨21/2, 21/2, 509/10, 251/5⟩ = (⟨10, 10, 50, 50⟩ : IntBox) := by
    show IntBox.mk (pyInt (21/2)) (pyInt (21/2)) (pyInt (509/10)) (pyInt (251/5)) =
      ⟨10, 10, 50, 50⟩
    rw [hA, hB, hC]
  constructor
  · rw [htb]
    rfl
  · exact crop_uses_truncated_box imgA namesAB 1 ⟨21/2, 21/2, 509/10, 251/5⟩
      ⟨imgA, ⟨10, 10, 50, 50⟩⟩ (by rw [htb]; rfl)

end CdrAi
